import Mathlib

/-!
Verification development for `climate.c`: a shallow embedding in Lean 4 of the
tab-delimited climate-observation aggregator, together with theorems settling
the specification claims.

Modelling conventions:
* C floating-point values (`double`, `long double`) are modelled as `ℚ`; the
  claims under study concern control flow (strict comparisons, increments,
  conditions), not rounding.
* `unsigned long long` parsing reduces the parsed value modulo `2 ^ 64`
  (wrap-around of `%llu`); counters (`unsigned long`, realistically far below
  their bounds) are modelled as `Nat`.
* A file is modelled as its list of lines, each line a `String` without the
  trailing newline (`fgets` keeps the newline, so the C length guard
  `strlen(line) >= LINE_BUFFER - 1` becomes `length + 1 ≥ LINE_BUFFER - 1`).
* `sscanf(line, "%2s\t%llu\t%12s\t%lf\t...")` is embedded conversion by
  conversion: every conversion first skips whitespace, `%2s`/`%12s` read at
  most 2/12 non-whitespace characters, `%llu` reads an optionally signed
  decimal integer, `%lf` reads an optionally signed decimal number with
  optional fractional part and optional exponent (hexadecimal floats,
  infinities and NaNs of `strtod` are not modelled; no claim touches them).
  A whitespace directive (the `\t` in the format) skips any run of
  whitespace, possibly empty, and never fails.
-/

namespace Climate

-- The rational operations of Batteries are irreducible by default, which
-- blocks `decide` on concrete runs of the model; restore unfolding locally.
attribute [local semireducible] Rat.add Rat.mul Rat.inv Rat.sub Rat.ofScientific

/-- `#define NUM_STATES 50` -/
def NUM_STATES : Nat := 50

/-- `#define LINE_BUFFER 100` -/
def LINE_BUFFER : Nat := 100

/-- The value of `DBL_MAX` as an exact rational, `(2 - 2⁻⁵²) · 2¹⁰²³ = 2¹⁰²⁴ - 2⁹⁷¹`,
written as its decimal literal so that concrete comparisons evaluate. -/
def DBL_MAX_Q : ℚ := 179769313486231570814527423731704356798070567525844996598917476803157260780028538760589558632766878171540458953514382464234321326889464182768467546703537516986049910576551282076245490090389328944075868508455133942304583236903222948165808559332123348274797826204144723168738177180919299881250404026184124858368

/-- C `isspace` on the default locale: the six standard whitespace characters. -/
def isCSpace (c : Char) : Bool :=
  c = ' ' || c = '\t' || c = '\n' || c = '\x0B' || c = '\x0C' || c = '\r'

/-- Skip a (possibly empty) run of whitespace, as a scanf whitespace directive
or the implicit whitespace skip at the start of a conversion does. -/
def skipWs (cs : List Char) : List Char := cs.dropWhile isCSpace

/-- Take characters satisfying `p`, but at most `n` of them (the field-width
limit of a scanf conversion); returns the taken prefix and the rest. -/
def takeWhileN (p : Char → Bool) : Nat → List Char → List Char × List Char
  | 0, cs => ([], cs)
  | _ + 1, [] => ([], [])
  | n + 1, c :: cs =>
    if p c then
      let r := takeWhileN p n cs
      (c :: r.1, r.2)
    else ([], c :: cs)

/-- A `%Ns` conversion: skip whitespace, then read at most `width`
non-whitespace characters; fails only when no character is available. -/
def scanString (width : Nat) (cs : List Char) : Option (String × List Char) :=
  let cs1 := skipWs cs
  let r := takeWhileN (fun c => ! isCSpace c) width cs1
  if r.1.isEmpty then none else some (String.mk r.1, r.2)

/-- Strip one optional sign character; `true` means a minus sign was read. -/
def signSplit (cs : List Char) : Bool × List Char :=
  match cs with
  | c :: r => if c = '-' then (true, r) else if c = '+' then (false, r) else (false, c :: r)
  | [] => (false, [])

/-- Value of a list of decimal digit characters. -/
def digitsVal (ds : List Char) : Nat :=
  ds.foldl (fun a c => a * 10 + (c.toNat - 48)) 0

/-- A `%llu` conversion: skip whitespace, optional sign, then at least one
decimal digit; the stored value wraps modulo `2 ^ 64`, a minus sign negating
modulo `2 ^ 64` as `strtoull` does. -/
def scanULL (cs : List Char) : Option (Nat × List Char) :=
  let cs1 := skipWs cs
  let s := signSplit cs1
  let d := s.2.span (·.isDigit)
  if d.1.isEmpty then none
  else
    let n := digitsVal d.1 % 2 ^ 64
    some ((if s.1 then (2 ^ 64 - n) % 2 ^ 64 else n), d.2)

/-- Optional exponent part of a `%lf` conversion: `e`/`E`, optional sign, and
at least one digit; if the digits are missing nothing is consumed. -/
def scanExp (cs : List Char) : Int × List Char :=
  match cs with
  | c :: r =>
    if c = 'e' || c = 'E' then
      let s := signSplit r
      let d := s.2.span (·.isDigit)
      if d.1.isEmpty then (0, cs)
      else ((if s.1 then -(digitsVal d.1 : Int) else (digitsVal d.1 : Int)), d.2)
    else (0, cs)
  | [] => (0, cs)

/-- Exact rational value of a parsed decimal number
`[-] ip [. fr] [e/E exp]`. -/
def qVal (neg : Bool) (ip fr : List Char) (e : Int) : ℚ :=
  let m : ℚ := (digitsVal ip : ℚ) + (digitsVal fr : ℚ) / (10 : ℚ) ^ fr.length
  (if neg then -m else m) * (10 : ℚ) ^ e

/-- A `%lf` conversion: skip whitespace, optional sign, then digits with an
optional fractional part (at least one digit overall) and an optional
exponent. -/
def scanLF (cs : List Char) : Option (ℚ × List Char) :=
  let cs1 := skipWs cs
  let s := signSplit cs1
  let ip := s.2.span (·.isDigit)
  match ip.2 with
  | '.' :: r =>
    let fr := r.span (·.isDigit)
    if ip.1.isEmpty && fr.1.isEmpty then none
    else
      let e := scanExp fr.2
      some (qVal s.1 ip.1 fr.1 e.1, e.2)
  | _ =>
    if ip.1.isEmpty then none
    else
      let e := scanExp ip.2
      some (qVal s.1 ip.1 [] e.1, e.2)

/-- One validated climate observation, the nine fields read by the `sscanf`
call in `analyze_file`. -/
structure Obs where
  stateCode : String
  timestamp : Nat
  geohash : String
  humidity : ℚ
  snow : ℚ
  cloudCover : ℚ
  lightning : ℚ
  pressure : ℚ
  temperature : ℚ
deriving DecidableEq

/-- The `sscanf(line, "%2s\t%llu\t%12s\t%lf\t%lf\t%lf\t%lf\t%lf\t%lf", ...)`
call of `analyze_file`: all nine conversions must succeed (the C code requires
the return value to equal 9); input remaining after the ninth conversion is
ignored, exactly as `sscanf` ignores it. -/
def parseLine (cs : List Char) : Option Obs := do
  let (st, r1) ← scanString 2 cs
  let (ts, r2) ← scanULL (skipWs r1)
  let (gh, r3) ← scanString 12 (skipWs r2)
  let (hu, r4) ← scanLF (skipWs r3)
  let (sn, r5) ← scanLF (skipWs r4)
  let (cl, r6) ← scanLF (skipWs r5)
  let (li, r7) ← scanLF (skipWs r6)
  let (pr, r8) ← scanLF (skipWs r7)
  let (te, _) ← scanLF (skipWs r8)
  pure { stateCode := st, timestamp := ts, geohash := gh, humidity := hu,
         snow := sn, cloudCover := cl, lightning := li, pressure := pr,
         temperature := te }

/-- The parse step of `analyze_file` followed by its range validation:
`humidity < 0 || humidity > 100 || cloudcover < 0 || cloudcover > 100 ||
temperature < 0` rejects the line. This is the `parse_line` contract of the
specification (§4.1). -/
def parseValidLine (cs : List Char) : Option Obs :=
  match parseLine cs with
  | none => none
  | some o =>
    if o.humidity < 0 ∨ 100 < o.humidity ∨ o.cloudCover < 0 ∨
        100 < o.cloudCover ∨ o.temperature < 0 then none
    else some o

/-- `struct climate_info`: the per-state running-statistics accumulator.
`num_records`, `lightning_strikes`, `snow_records` (C `unsigned long`) are
`Nat`; the `long double` sums and extrema are `ℚ`; the `time_t` extrema
timestamps are `Nat` (they are quotients of a `%llu` value by 1000). -/
structure ClimateInfo where
  code : String
  numRecords : Nat
  sumTemperature : ℚ
  sumHumidity : ℚ
  sumCloudcover : ℚ
  lightningStrikes : Nat
  snowRecords : Nat
  maxTempTime : Nat
  minTempTime : Nat
  maxTemp : ℚ
  minTemp : ℚ
deriving DecidableEq

instance : Inhabited ClimateInfo :=
  ⟨⟨"", 0, 0, 0, 0, 0, 0, 0, 0, 0, 0⟩⟩

/-- A freshly created accumulator, as built in the find-or-create loop of
`analyze_file`: `calloc` zeroes every field, the code is copied in, and
`max_temp` / `min_temp` are set to `-DBL_MAX` / `DBL_MAX`. -/
def mkCI (code : String) : ClimateInfo :=
  { code := code, numRecords := 0, sumTemperature := 0, sumHumidity := 0,
    sumCloudcover := 0, lightningStrikes := 0, snowRecords := 0,
    maxTempTime := 0, minTempTime := 0, maxTemp := -DBL_MAX_Q,
    minTemp := DBL_MAX_Q }

/-- The unconditional update block of `analyze_file` (lines 206-224 of
`climate.c`): increment the record count, add to the three sums, bump the
indicator counts when the indicator is `> 0`, and update each extremum and
its timestamp on a strict comparison, the timestamp being
`timestamp / 1000`. -/
def updateCI (info : ClimateInfo) (o : Obs) : ClimateInfo :=
  let i1 : ClimateInfo :=
    { info with
      numRecords := info.numRecords + 1,
      sumTemperature := info.sumTemperature + o.temperature,
      sumHumidity := info.sumHumidity + o.humidity,
      sumCloudcover := info.sumCloudcover + o.cloudCover,
      lightningStrikes := info.lightningStrikes + (if 0 < o.lightning then 1 else 0),
      snowRecords := info.snowRecords + (if 0 < o.snow then 1 else 0) }
  let i2 : ClimateInfo :=
    if i1.maxTemp < o.temperature then
      { i1 with maxTemp := o.temperature, maxTempTime := o.timestamp / 1000 }
    else i1
  if o.temperature < i2.minTemp then
    { i2 with minTemp := o.temperature, minTempTime := o.timestamp / 1000 }
  else i2

/-- The find-or-create scan of `analyze_file` followed by the update: the
array of `NUM_STATES` pointers is modelled as the list of its non-null
entries (creation always happens at the first null slot, so the non-null
slots form a prefix). `cap` counts the slots still in range of the scan;
reaching the end of the array (`cap = 0`) yields `none` (`state_idx == -1`),
in which case the caller skips the observation. -/
def applyObs : List ClimateInfo → Nat → Obs → Option (List ClimateInfo)
  | _, 0, _ => none
  | [], _ + 1, o => some [updateCI (mkCI o.stateCode) o]
  | a :: rest, cap + 1, o =>
    if a.code = o.stateCode then some (updateCI a o :: rest)
    else
      match applyObs rest cap o with
      | some rest' => some (a :: rest')
      | none => none

/-- One iteration of the `while (fgets(...))` loop of `analyze_file`: the
length guard (`strlen(line) >= LINE_BUFFER - 1`, the stored line including
its newline), the parse + range validation, and the find-or-create + update;
the returned flag tells whether `lines_processed` was incremented, i.e.
whether the line was folded into the table. -/
def processLine (t : List ClimateInfo) (l : String) : List ClimateInfo × Bool :=
  if LINE_BUFFER - 1 ≤ l.length + 1 then (t, false)
  else
    match parseValidLine l.data with
    | none => (t, false)
    | some o =>
      match applyObs t NUM_STATES o with
      | some t' => (t', true)
      | none => (t, false)

/-- The table after the whole line loop of `analyze_file`. -/
def processLines (t : List ClimateInfo) (ls : List String) : List ClimateInfo :=
  ls.foldl (fun t l => (processLine t l).1) t

/-- The line loop of `analyze_file` carrying `lines_processed`. -/
def analyzeFileAux : List ClimateInfo → Nat → List String → List ClimateInfo × Nat
  | t, n, [] => (t, n)
  | t, n, l :: ls =>
    let r := processLine t l
    analyzeFileAux r.1 (if r.2 then n + 1 else n) ls

/-- `analyze_file` on an already opened file (its list of lines): the final
table and the success flag (`true` models the return value `0`, produced
exactly when `lines_processed > 0`). -/
def analyzeFile (t : List ClimateInfo) (ls : List String) :
    List ClimateInfo × Bool :=
  let r := analyzeFileAux t 0 ls
  (r.1, decide (0 < r.2))

/-- Whether some line of the file is folded into the (evolving) table:
the specification's "at least one line was successfully folded in". -/
def foldedAny : List ClimateInfo → List String → Bool
  | _, [] => false
  | t, l :: ls =>
    let r := processLine t l
    r.2 || foldedAny r.1 ls

/-- The numeric content of one per-state block of `print_report`, including
the Kelvin→Fahrenheit conversions; textual formatting (one-decimal rounding,
`ctime` rendering of the timestamps) is not modelled. -/
structure Block where
  code : String
  numRecords : Nat
  avgHumidity : ℚ
  avgTemperatureF : ℚ
  maxTemperatureF : ℚ
  maxTempTime : Nat
  minTemperatureF : ℚ
  minTempTime : Nat
  lightningStrikes : Nat
  snowRecords : Nat
  avgCloudCover : ℚ
deriving DecidableEq

/-- The report of `print_report`: the "States found:" header lists the code
of every non-null entry in slot order, and the per-state blocks follow in
the same order. -/
structure Report where
  headerCodes : List String
  blocks : List Block
deriving DecidableEq

/-- `print_report`: a pure read of the final table. -/
def printReport (t : List ClimateInfo) : Report :=
  { headerCodes := t.map (·.code),
    blocks := t.map fun info =>
      { code := info.code,
        numRecords := info.numRecords,
        avgHumidity := info.sumHumidity / info.numRecords,
        avgTemperatureF :=
          (info.sumTemperature / info.numRecords - 273.15) * 9 / 5 + 32,
        maxTemperatureF := (info.maxTemp - 273.15) * 9 / 5 + 32,
        maxTempTime := info.maxTempTime,
        minTemperatureF := (info.minTemp - 273.15) * 9 / 5 + 32,
        minTempTime := info.minTempTime,
        lightningStrikes := info.lightningStrikes,
        snowRecords := info.snowRecords,
        avgCloudCover := info.sumCloudcover / info.numRecords } }

/-- The observable outcome of `main`: the exit status (`true` for
`EXIT_SUCCESS`), the report printed to standard output (if any), and the
diagnostics printed to `stderr` (file names elided from the messages). -/
structure MainOut where
  exitSuccess : Bool
  report : Option Report
  errs : List String
deriving DecidableEq

/-- The second loop of `main`: each command-line file is `none` when `fopen`
fails, otherwise `some` of its lines; the table, the `files_processed`
counter and the diagnostics accumulate across files (the table is never
reset). -/
def runFiles : List ClimateInfo → Nat → List String →
    List (Option (List String)) → List ClimateInfo × Nat × List String
  | t, n, errs, [] => (t, n, errs)
  | t, n, errs, none :: fs =>
    runFiles t n (errs ++ ["Unable to open file"]) fs
  | t, n, errs, some ls :: fs =>
    let r := analyzeFile t ls
    if r.2 then runFiles r.1 (n + 1) errs fs
    else runFiles r.1 n (errs ++ ["Error processing file"]) fs

/-- `files_processed` at the end of the loop of `main`. -/
def filesProcessed (fs : List (Option (List String))) : Nat :=
  (runFiles [] 0 [] fs).2.1

/-- The shared table at the end of the loop of `main`. -/
def finalTable (fs : List (Option (List String))) : List ClimateInfo :=
  (runFiles [] 0 [] fs).1

/-- `main`: no arguments is an immediate failure with a diagnostic and no
file access; otherwise every file is attempted, and the report is printed
(once) exactly when at least one file was processed successfully. -/
def mainModel (files : List (Option (List String))) : MainOut :=
  if files.isEmpty then
    { exitSuccess := false, report := none,
      errs := ["Not enough arguments provided. No file provided to analyze."] }
  else
    let r := runFiles [] 0 [] files
    if r.2.1 = 0 then
      { exitSuccess := false, report := none,
        errs := r.2.2 ++ ["No valid files were processed."] }
    else
      { exitSuccess := true, report := some (printReport r.1), errs := r.2.2 }

/-- The codes of the lines folded into the table, in processing order
(each time `lines_processed` is incremented, the state code of the parsed
observation of that line). -/
def foldedTrace : List ClimateInfo → List String → List String
  | _, [] => []
  | t, l :: ls =>
    let r := processLine t l
    (if r.2 = true then
       match parseValidLine l.data with
       | some o => [o.stateCode]
       | none => []
     else []) ++ foldedTrace r.1 ls

/-- First-sighting deduplication: keep the first occurrence of every
element, dropping the ones already `seen`. -/
def dedupFirstAux (seen : List String) : List String → List String
  | [] => []
  | c :: cs =>
    if c ∈ seen then dedupFirstAux seen cs
    else c :: dedupFirstAux (seen ++ [c]) cs

/-- The elements of a list in order of first sighting, each exactly once. -/
def dedupFirst (cs : List String) : List String := dedupFirstAux [] cs

/-! ### Concrete inputs used by the witnesses and counterexamples -/

/-- A concrete accumulator used by the witnesses: a freshly created entry. -/
def wAcc : ClimateInfo := mkCI "CA"

/-- A concrete in-range observation used by the witnesses. -/
def wObs : Obs :=
  { stateCode := "CA", timestamp := 5000, geohash := "g", humidity := 50,
    snow := 1, cloudCover := 20, lightning := 2, pressure := 1000,
    temperature := 300 }

/-- The witness observation for C4: same temperature as `wObs`, different
timestamp. -/
def wObs2 : Obs := { wObs with timestamp := 9000 }

/-- The one-line file used by several witnesses. -/
def wLines : List String := ["CA\t5000\tg\t50\t0\t50\t0\t1\t300"]

/-- A table with all `NUM_STATES` slots occupied. -/
def fullTable : List ClimateInfo := List.replicate NUM_STATES (mkCI "AA")

/-- A valid line for a state code not present in `fullTable`. -/
def wLineTX : String := "TX\t1\tg\t50\t0\t50\t0\t1\t300"

/-- The observation `wLineTX` parses to. -/
def wObsTX : Obs :=
  { stateCode := "TX", timestamp := 1, geohash := "g", humidity := 50,
    snow := 0, cloudCover := 50, lightning := 0, pressure := 1,
    temperature := 300 }

/-- A line with ten tab-separated fields. -/
def exLine10 : String := "CA\t1\tg\t50\t0\t50\t0\t1000\t300\tx"

/-- A nine-field line whose state-code field has three characters. -/
def exLineLongCode : String := "CAL\t1428300000000\tgeo\t93\t0\t100\t0\t95644\t277"

/-- The same line with a two-character state code. -/
def exLineOkCode : String := "CA\t1428300000000\tgeo\t93\t0\t100\t0\t95644\t277"

/-! ### Field laws of the update fold -/

theorem updateCI_code (info : ClimateInfo) (o : Obs) :
    (updateCI info o).code = info.code := by
  simp only [updateCI]
  split_ifs <;> rfl

theorem updateCI_numRecords (info : ClimateInfo) (o : Obs) :
    (updateCI info o).numRecords = info.numRecords + 1 := by
  simp only [updateCI]
  split_ifs <;> rfl

theorem updateCI_sumTemperature (info : ClimateInfo) (o : Obs) :
    (updateCI info o).sumTemperature = info.sumTemperature + o.temperature := by
  simp only [updateCI]
  split_ifs <;> rfl

theorem updateCI_sumHumidity (info : ClimateInfo) (o : Obs) :
    (updateCI info o).sumHumidity = info.sumHumidity + o.humidity := by
  simp only [updateCI]
  split_ifs <;> rfl

theorem updateCI_sumCloudcover (info : ClimateInfo) (o : Obs) :
    (updateCI info o).sumCloudcover = info.sumCloudcover + o.cloudCover := by
  simp only [updateCI]
  split_ifs <;> rfl

theorem updateCI_lightningStrikes (info : ClimateInfo) (o : Obs) :
    (updateCI info o).lightningStrikes
      = info.lightningStrikes + (if 0 < o.lightning then 1 else 0) := by
  simp only [updateCI]
  split_ifs <;> rfl

theorem updateCI_snowRecords (info : ClimateInfo) (o : Obs) :
    (updateCI info o).snowRecords
      = info.snowRecords + (if 0 < o.snow then 1 else 0) := by
  simp only [updateCI]
  split_ifs <;> rfl

theorem updateCI_maxTemp (info : ClimateInfo) (o : Obs) :
    (updateCI info o).maxTemp
      = if info.maxTemp < o.temperature then o.temperature else info.maxTemp := by
  simp only [updateCI]
  split_ifs <;> rfl

theorem updateCI_maxTempTime (info : ClimateInfo) (o : Obs) :
    (updateCI info o).maxTempTime
      = if info.maxTemp < o.temperature then o.timestamp / 1000
        else info.maxTempTime := by
  simp only [updateCI]
  split_ifs <;> rfl

theorem updateCI_minTemp (info : ClimateInfo) (o : Obs) :
    (updateCI info o).minTemp
      = if o.temperature < info.minTemp then o.temperature else info.minTemp := by
  simp only [updateCI]
  split_ifs <;> rfl

theorem updateCI_minTempTime (info : ClimateInfo) (o : Obs) :
    (updateCI info o).minTempTime
      = if o.temperature < info.minTemp then o.timestamp / 1000
        else info.minTempTime := by
  simp only [updateCI]
  split_ifs <;> rfl

/-! ### Claim C1: the update fold -/

/-- C1: for every accumulator and observation the update fold (a total
function, no failure mode) increments `record_count` by one, adds
temperature, humidity and cloud cover to their running sums, increments
`lightning_strikes` iff `lightning > 0` and `snow_records` iff `snow > 0`,
and replaces `max_temperature` (resp. `min_temperature`) together with its
timestamp iff the observation's temperature is strictly greater (resp.
strictly less) than the stored extremum, the new timestamp being the
millisecond timestamp floor-divided by 1000. -/
theorem C1_update_fold (acc : ClimateInfo) (o : Obs) :
    (updateCI acc o).numRecords = acc.numRecords + 1 ∧
    (updateCI acc o).sumTemperature = acc.sumTemperature + o.temperature ∧
    (updateCI acc o).sumHumidity = acc.sumHumidity + o.humidity ∧
    (updateCI acc o).sumCloudcover = acc.sumCloudcover + o.cloudCover ∧
    (0 < o.lightning →
      (updateCI acc o).lightningStrikes = acc.lightningStrikes + 1) ∧
    (¬ 0 < o.lightning →
      (updateCI acc o).lightningStrikes = acc.lightningStrikes) ∧
    (0 < o.snow → (updateCI acc o).snowRecords = acc.snowRecords + 1) ∧
    (¬ 0 < o.snow → (updateCI acc o).snowRecords = acc.snowRecords) ∧
    (acc.maxTemp < o.temperature →
      (updateCI acc o).maxTemp = o.temperature ∧
      (updateCI acc o).maxTempTime = o.timestamp / 1000) ∧
    (¬ acc.maxTemp < o.temperature →
      (updateCI acc o).maxTemp = acc.maxTemp ∧
      (updateCI acc o).maxTempTime = acc.maxTempTime) ∧
    (o.temperature < acc.minTemp →
      (updateCI acc o).minTemp = o.temperature ∧
      (updateCI acc o).minTempTime = o.timestamp / 1000) ∧
    (¬ o.temperature < acc.minTemp →
      (updateCI acc o).minTemp = acc.minTemp ∧
      (updateCI acc o).minTempTime = acc.minTempTime) := by
  refine ⟨updateCI_numRecords acc o, updateCI_sumTemperature acc o,
    updateCI_sumHumidity acc o, updateCI_sumCloudcover acc o,
    ?_, ?_, ?_, ?_, ?_, ?_, ?_, ?_⟩ <;> intro h <;>
      simp [updateCI_lightningStrikes, updateCI_snowRecords, updateCI_maxTemp,
        updateCI_maxTempTime, updateCI_minTemp, updateCI_minTempTime, h]

/-- Witness for C1: evaluating the update fold at a concrete accumulator and
observation with positive indicators and a new extremum. -/
theorem C1_update_fold_witness :
    (updateCI wAcc wObs).numRecords = wAcc.numRecords + 1 ∧
    (updateCI wAcc wObs).lightningStrikes = wAcc.lightningStrikes + 1 ∧
    (updateCI wAcc wObs).snowRecords = wAcc.snowRecords + 1 ∧
    (updateCI wAcc wObs).maxTemp = wObs.temperature ∧
    (updateCI wAcc wObs).maxTempTime = wObs.timestamp / 1000 ∧
    (updateCI wAcc wObs).minTemp = wObs.temperature ∧
    (updateCI wAcc wObs).minTempTime = wObs.timestamp / 1000 := by
  obtain ⟨h1, -, -, -, h5, -, h7, -, h9, -, h11, -⟩ := C1_update_fold wAcc wObs
  exact ⟨h1, h5 (by decide), h7 (by decide), (h9 (by decide)).1,
    (h9 (by decide)).2, (h11 (by decide)).1, (h11 (by decide)).2⟩

/-! ### Claim C4: strict comparisons mean ties keep the first extremum -/

/-- C4: folding two observations of equal temperature, the second never
replaces the stored extrema or their timestamps: the comparisons are strict,
so whatever the accumulator held, the tie at the second observation leaves
`max_temperature`, `min_temperature` and both timestamps those of the state
after the first observation. -/
theorem C4_tie_keeps_first (acc : ClimateInfo) (o1 o2 : Obs)
    (h : o1.temperature = o2.temperature) :
    (updateCI (updateCI acc o1) o2).maxTemp = (updateCI acc o1).maxTemp ∧
    (updateCI (updateCI acc o1) o2).maxTempTime
      = (updateCI acc o1).maxTempTime ∧
    (updateCI (updateCI acc o1) o2).minTemp = (updateCI acc o1).minTemp ∧
    (updateCI (updateCI acc o1) o2).minTempTime
      = (updateCI acc o1).minTempTime := by
  have hmax : ¬ (updateCI acc o1).maxTemp < o2.temperature := by
    rw [updateCI_maxTemp, ← h]
    split_ifs with h1
    · exact lt_irrefl _
    · exact h1
  have hmin : ¬ o2.temperature < (updateCI acc o1).minTemp := by
    rw [updateCI_minTemp, ← h]
    split_ifs with h1
    · exact lt_irrefl _
    · exact h1
  refine ⟨?_, ?_, ?_, ?_⟩
  · rw [updateCI_maxTemp, if_neg hmax]
  · rw [updateCI_maxTempTime, if_neg hmax]
  · rw [updateCI_minTemp, if_neg hmin]
  · rw [updateCI_minTempTime, if_neg hmin]

/-- Witness for C4 at two concrete equal-temperature observations: the
retained timestamps are those of the first. -/
theorem C4_tie_keeps_first_witness :
    (updateCI (updateCI wAcc wObs) wObs2).maxTempTime
      = (updateCI wAcc wObs).maxTempTime ∧
    (updateCI (updateCI wAcc wObs) wObs2).minTempTime
      = (updateCI wAcc wObs).minTempTime := by
  obtain ⟨-, h2, -, h4⟩ := C4_tie_keeps_first wAcc wObs wObs2 (by decide)
  exact ⟨h2, h4⟩

/-! ### Find-or-create lemmas -/

/-- Every entry of a successful find-or-create + update is either an
untouched old entry or the update of some accumulator. -/
theorem applyObs_mem (o : Obs) :
    ∀ (t : List ClimateInfo) (cap : Nat) (t' : List ClimateInfo),
      applyObs t cap o = some t' →
      ∀ a ∈ t', a ∈ t ∨ ∃ b, a = updateCI b o := by
  intro t
  induction t with
  | nil =>
    intro cap t' h a ha
    cases cap with
    | zero => simp [applyObs] at h
    | succ n =>
      simp only [applyObs, Option.some.injEq] at h
      subst h
      simp only [List.mem_singleton] at ha
      exact Or.inr ⟨mkCI o.stateCode, ha⟩
  | cons x rest ih =>
    intro cap t' h a ha
    cases cap with
    | zero => simp [applyObs] at h
    | succ n =>
      simp only [applyObs] at h
      split_ifs at h with hc
      · simp only [Option.some.injEq] at h
        subst h
        rcases List.mem_cons.mp ha with h1 | h1
        · exact Or.inr ⟨x, h1⟩
        · exact Or.inl (List.mem_cons_of_mem x h1)
      · cases hr : applyObs rest n o with
        | none => rw [hr] at h; exact absurd h (by simp)
        | some rest' =>
          rw [hr] at h
          simp only [Option.some.injEq] at h
          subst h
          rcases List.mem_cons.mp ha with h1 | h1
          · exact Or.inl (h1 ▸ List.mem_cons_self x rest)
          · rcases ih n rest' hr a h1 with h2 | h2
            · exact Or.inl (List.mem_cons_of_mem x h2)
            · exact Or.inr h2

/-- When the scan runs out of slots (`cap` bounded by the number of existing
entries) and no entry matches, find-or-create signals `NOT_FOUND`. -/
theorem applyObs_none_of_full (o : Obs) :
    ∀ (t : List ClimateInfo) (cap : Nat), cap ≤ t.length →
      (∀ a ∈ t, a.code ≠ o.stateCode) → applyObs t cap o = none := by
  intro t
  induction t with
  | nil =>
    intro cap hcap _
    have : cap = 0 := Nat.le_zero.mp hcap
    subst this
    rfl
  | cons x rest ih =>
    intro cap hcap hcode
    cases cap with
    | zero => rfl
    | succ n =>
      simp only [applyObs]
      rw [if_neg (hcode x (List.mem_cons_self x rest))]
      rw [ih n (Nat.succ_le_succ_iff.mp hcap)
        (fun a ha => hcode a (List.mem_cons_of_mem x ha))]

/-! ### Claim C5: every existing accumulator has `record_count ≥ 1` -/

/-- Processing preserves the positivity of every record count. -/
theorem processLines_counts (ls : List String) :
    ∀ t, (∀ a ∈ t, 1 ≤ a.numRecords) →
      ∀ a ∈ processLines t ls, 1 ≤ a.numRecords := by
  induction ls with
  | nil => intro t ht a ha; exact ht a ha
  | cons l ls ih =>
    intro t ht a ha
    rw [processLines, List.foldl_cons] at ha
    refine ih (processLine t l).1 ?_ a ha
    intro b hb
    unfold processLine at hb
    split_ifs at hb with hguard
    · exact ht b hb
    · revert hb
      cases hp : parseValidLine l.data with
      | none => intro hb; exact ht b hb
      | some o =>
        cases hap : applyObs t NUM_STATES o with
        | none => simp only [hap]; intro hb; exact ht b hb
        | some t' =>
          simp only [hap]
          intro hb
          rcases applyObs_mem o t NUM_STATES t' hap b hb with h1 | ⟨c, h1⟩
          · exact ht b h1
          · rw [h1, updateCI_numRecords]
            exact Nat.le_add_left 1 c.numRecords

/-- C5: in every table reachable from the empty table by processing input
lines, every existing accumulator has `record_count ≥ 1` (it was created
together with its first successful update), so the per-state divisions of
`print_report` are safe. -/
theorem C5_record_count_pos (ls : List String) (a : ClimateInfo)
    (h : a ∈ processLines [] ls) : 1 ≤ a.numRecords :=
  processLines_counts ls [] (by intro b hb; cases hb) a h

/-- Witness for C5 on a concrete one-line run. -/
theorem C5_record_count_pos_witness :
    1 ≤ ((processLines [] wLines).headI).numRecords :=
  C5_record_count_pos wLines ((processLines [] wLines).headI) (by decide)

/-! ### Claim C6: capacity exhaustion silently drops new codes -/

/-- C6: when the table already holds `NUM_STATES` accumulators and a valid
observation carries a code matching none of them, the line is dropped: the
returned table is exactly the old one (every entry unchanged) and the fold
flag is `false`. -/
theorem C6_capacity_drop (t : List ClimateInfo) (l : String) (o : Obs)
    (hlen : t.length = NUM_STATES)
    (hparse : parseValidLine l.data = some o)
    (hnew : ∀ a ∈ t, a.code ≠ o.stateCode) :
    processLine t l = (t, false) := by
  unfold processLine
  split_ifs with hguard
  · rfl
  · rw [hparse]
    show (match applyObs t NUM_STATES o with
          | some t' => (t', true)
          | none => (t, false)) = (t, false)
    rw [applyObs_none_of_full o t NUM_STATES hlen.ge hnew]

/-- Witness for C6: a full table and a fresh code, evaluated concretely. -/
theorem C6_capacity_drop_witness :
    processLine fullTable wLineTX = (fullTable, false) :=
  C6_capacity_drop fullTable wLineTX wObsTX (by decide) (by decide) (by decide)

/-! ### The line loop: table component and success flag -/

/-- The table component of the line loop does not depend on the
`lines_processed` counter. -/
theorem analyzeFileAux_fst :
    ∀ (ls : List String) (t : List ClimateInfo) (n : Nat),
      (analyzeFileAux t n ls).1 = processLines t ls := by
  intro ls
  induction ls with
  | nil => intro t n; rfl
  | cons l ls ih =>
    intro t n
    simp only [analyzeFileAux, processLines, List.foldl_cons]
    simpa [processLines] using
      ih (processLine t l).1 (if (processLine t l).2 then n + 1 else n)

/-- The table returned by `analyze_file` is the pure fold of the lines. -/
theorem analyzeFile_fst (t : List ClimateInfo) (ls : List String) :
    (analyzeFile t ls).1 = processLines t ls :=
  analyzeFileAux_fst ls t 0

/-- The counter of the line loop is positive iff it started positive or some
line was folded in. -/
theorem analyzeFileAux_pos :
    ∀ (ls : List String) (t : List ClimateInfo) (n : Nat),
      0 < (analyzeFileAux t n ls).2 ↔ (0 < n ∨ foldedAny t ls = true) := by
  intro ls
  induction ls with
  | nil => intro t n; simp [analyzeFileAux, foldedAny]
  | cons l ls ih =>
    intro t n
    simp only [analyzeFileAux, foldedAny]
    rw [ih]
    cases h : (processLine t l).2 <;> simp [h, Nat.lt_succ_iff, or_assoc]

/-! ### Claim C7: per-file success iff at least one line folded -/

/-- C7: `analyze_file` reports success exactly when at least one line of the
file was folded into the table; in every case (success or failure) the
returned table is the full fold of the file's lines — nothing is rolled
back — and an empty file is reported as a failure. -/
theorem C7_file_success (t : List ClimateInfo) (ls : List String) :
    (analyzeFile t ls).2 = foldedAny t ls ∧
    (analyzeFile t ls).1 = processLines t ls ∧
    (analyzeFile t []).2 = false := by
  refine ⟨?_, analyzeFile_fst t ls, rfl⟩
  have h : 0 < (analyzeFileAux t 0 ls).2 ↔ foldedAny t ls = true := by
    simpa using analyzeFileAux_pos ls t 0
  show decide (0 < (analyzeFileAux t 0 ls).2) = foldedAny t ls
  cases hf : foldedAny t ls
  · rw [hf] at h
    exact decide_eq_false fun hp => by simpa using h.mp hp
  · rw [hf] at h
    exact decide_eq_true (h.mpr rfl)

/-! ### Claim C3: cross-file accumulation -/

/-- C3: processing two files in order over the shared table produces exactly
the table of the single combined file: the table is not reset between files,
so per-state accumulators (in particular those of any one state code) agree
between the split run and the combined run. -/
theorem C3_cross_file (t : List ClimateInfo) (ls1 ls2 : List String) :
    (analyzeFile (analyzeFile t ls1).1 ls2).1 = (analyzeFile t (ls1 ++ ls2)).1 := by
  rw [analyzeFile_fst, analyzeFile_fst, analyzeFile_fst]
  simp only [processLines, List.foldl_append]

/-! ### Claim C9: report order is first-sighting order -/

theorem dedupFirstAux_not_mem :
    ∀ (cs seen : List String) (c : String), c ∈ dedupFirstAux seen cs → c ∉ seen := by
  intro cs
  induction cs with
  | nil => intro seen c h; simp [dedupFirstAux] at h
  | cons x cs ih =>
    intro seen c h
    simp only [dedupFirstAux] at h
    split_ifs at h with hx
    · exact ih seen c h
    · rcases List.mem_cons.mp h with rfl | h1
      · exact hx
      · intro hc
        exact (ih (seen ++ [x]) c h1) (List.mem_append_left _ hc)

theorem dedupFirstAux_nodup :
    ∀ (cs seen : List String), (dedupFirstAux seen cs).Nodup := by
  intro cs
  induction cs with
  | nil => intro seen; simp [dedupFirstAux]
  | cons x cs ih =>
    intro seen
    simp only [dedupFirstAux]
    split_ifs with hx
    · exact ih seen
    · refine List.nodup_cons.mpr ⟨?_, ih (seen ++ [x])⟩
      intro hmem
      exact (dedupFirstAux_not_mem cs (seen ++ [x]) x hmem)
        (List.mem_append_right _ (List.mem_singleton.mpr rfl))

/-- Codes after a successful find-or-create + update: either the code was
already present and the code list is unchanged, or it was absent and is
appended at the end (insertion order). -/
theorem applyObs_codes (o : Obs) :
    ∀ (t : List ClimateInfo) (cap : Nat) (t' : List ClimateInfo),
      applyObs t cap o = some t' →
      (o.stateCode ∈ t.map ClimateInfo.code ∧
        t'.map ClimateInfo.code = t.map ClimateInfo.code) ∨
      (o.stateCode ∉ t.map ClimateInfo.code ∧
        t'.map ClimateInfo.code = t.map ClimateInfo.code ++ [o.stateCode]) := by
  intro t
  induction t with
  | nil =>
    intro cap t' h
    cases cap with
    | zero => simp [applyObs] at h
    | succ n =>
      simp only [applyObs, Option.some.injEq] at h
      subst h
      refine Or.inr ⟨by simp, ?_⟩
      simp [updateCI_code, mkCI]
  | cons x rest ih =>
    intro cap t' h
    cases cap with
    | zero => simp [applyObs] at h
    | succ n =>
      simp only [applyObs] at h
      split_ifs at h with hc
      · simp only [Option.some.injEq] at h
        subst h
        exact Or.inl ⟨by simp [hc], by simp [updateCI_code]⟩
      · cases hr : applyObs rest n o with
        | none => rw [hr] at h; exact absurd h (by simp)
        | some rest' =>
          rw [hr] at h
          simp only [Option.some.injEq] at h
          subst h
          rcases ih n rest' hr with ⟨hm, he⟩ | ⟨hm, he⟩
          · exact Or.inl ⟨by simp [hm], by simp [he]⟩
          · refine Or.inr ⟨?_, by simp [he]⟩
            simp only [List.map_cons, List.mem_cons]
            rintro (h1 | h1)
            · exact hc h1.symm
            · exact hm h1

/-- Case analysis of one line-loop iteration: either the line is not folded
and the table is unchanged, or it parses, find-or-create succeeds and the
table becomes the updated one. -/
theorem processLine_cases (t : List ClimateInfo) (l : String) :
    processLine t l = (t, false) ∨
    (∃ o t', parseValidLine l.data = some o ∧
      applyObs t NUM_STATES o = some t' ∧ processLine t l = (t', true)) := by
  by_cases hguard : LINE_BUFFER - 1 ≤ l.length + 1
  · exact Or.inl (by unfold processLine; rw [if_pos hguard])
  · cases hp : parseValidLine l.data with
    | none => exact Or.inl (by unfold processLine; rw [if_neg hguard, hp])
    | some o =>
      cases ha : applyObs t NUM_STATES o with
      | none =>
        refine Or.inl ?_
        unfold processLine
        rw [if_neg hguard, hp]
        show (match applyObs t NUM_STATES o with
              | some t' => (t', true)
              | none => (t, false)) = (t, false)
        rw [ha]
      | some t' =>
        refine Or.inr ⟨o, t', rfl, ha, ?_⟩
        unfold processLine
        rw [if_neg hguard, hp]
        show (match applyObs t NUM_STATES o with
              | some t' => (t', true)
              | none => (t, false)) = (t', true)
        rw [ha]

/-- The code list of the table after processing: the initial codes followed
by the not-yet-seen folded codes, in first-sighting order. -/
theorem processLines_codes :
    ∀ (ls : List String) (t : List ClimateInfo),
      (processLines t ls).map ClimateInfo.code
        = t.map ClimateInfo.code
          ++ dedupFirstAux (t.map ClimateInfo.code) (foldedTrace t ls) := by
  intro ls
  induction ls with
  | nil => intro t; simp [processLines, foldedTrace, dedupFirstAux]
  | cons l ls ih =>
    intro t
    have htr : foldedTrace t (l :: ls)
        = (if (processLine t l).2 = true then
             match parseValidLine l.data with
             | some o => [o.stateCode]
             | none => []
           else []) ++ foldedTrace (processLine t l).1 ls := by
      simp only [foldedTrace]
    rw [processLines, List.foldl_cons, htr]
    rcases processLine_cases t l with hcase | ⟨o, t', hp, ha, hcase⟩
    · rw [hcase]
      simp only [Bool.false_eq_true, if_false, List.nil_append]
      simpa [processLines] using ih t
    · rw [hcase, hp]
      simp only [if_pos rfl]
      rcases applyObs_codes o t NUM_STATES t' ha with ⟨hm, he⟩ | ⟨hm, he⟩
      · have h2 := ih t'
        rw [he] at h2
        simp only [List.singleton_append, dedupFirstAux, if_pos hm]
        simpa [processLines] using h2
      · have h2 := ih t'
        rw [he] at h2
        simp only [List.singleton_append, dedupFirstAux, if_neg hm]
        simpa [processLines, List.append_assoc] using h2

/-- C9: for a whole run from the empty table, the report's "States found:"
header and its sequence of per-state blocks both list exactly the codes
folded during the run, each exactly once, in order of first sighting. -/
theorem C9_report_order (ls : List String) :
    (printReport (processLines [] ls)).headerCodes
      = dedupFirst (foldedTrace [] ls) ∧
    (printReport (processLines [] ls)).blocks.map Block.code
      = dedupFirst (foldedTrace [] ls) ∧
    (dedupFirst (foldedTrace [] ls)).Nodup := by
  have h := processLines_codes ls []
  simp only [List.map_nil, List.nil_append] at h
  refine ⟨?_, ?_, dedupFirstAux_nodup (foldedTrace [] ls) []⟩
  · simpa [printReport, dedupFirst] using h
  · simpa [printReport, dedupFirst, List.map_map, Function.comp] using h

/-! ### Claim C8: the control flow of main -/

/-- C8: with zero file arguments, `main` exits with failure after a
diagnostic and prints no report (no file content is ever consulted); with at
least one argument, if no file is successfully processed it prints a
diagnostic and exits with failure and no report, and otherwise it prints the
report of the final shared table once and exits with success. -/
theorem C8_main_behavior :
    mainModel []
      = { exitSuccess := false, report := none,
          errs := ["Not enough arguments provided. No file provided to analyze."] } ∧
    ∀ fs : List (Option (List String)), fs ≠ [] →
      (filesProcessed fs = 0 →
        (mainModel fs).exitSuccess = false ∧ (mainModel fs).report = none ∧
        (mainModel fs).errs ≠ []) ∧
      (0 < filesProcessed fs →
        (mainModel fs).exitSuccess = true ∧
        (mainModel fs).report = some (printReport (finalTable fs))) := by
  refine ⟨rfl, ?_⟩
  intro fs hfs
  have hne : fs.isEmpty = false := by
    cases fs with
    | nil => exact absurd rfl hfs
    | cons a l => rfl
  constructor
  · intro h0
    rw [filesProcessed] at h0
    refine ⟨?_, ?_, ?_⟩ <;> simp [mainModel, hne, h0]
  · intro hpos
    rw [filesProcessed] at hpos
    have hn0 : ¬ (runFiles [] 0 [] fs).2.1 = 0 := Nat.pos_iff_ne_zero.mp hpos
    constructor <;> simp [mainModel, hne, hn0, finalTable]

/-- Witness for C8: one openable one-line file, evaluated concretely. -/
theorem C8_main_behavior_witness :
    (mainModel [some wLines]).exitSuccess = true ∧
    (mainModel [some wLines]).report
      = some (printReport (finalTable [some wLines])) :=
  (C8_main_behavior.2 [some wLines] (by decide)).2 (by decide)

/-! ### Claim C2: the parser's acceptance condition -/

/-- C2 counterexample: `exLine10` splits into ten tab-separated fields — a
deviation in field count, which the claim says yields `Rejected` — yet the
parser accepts it: `sscanf` stops after its nine conversions succeed and
ignores the rest of the line. -/
theorem C2_parser_counterexample :
    (parseValidLine exLine10.data).isSome = true ∧
    (exLine10.data.splitOn '\t').length ≠ 9 := by decide

/-- Characterization of acceptance: the nine conversions succeed and the
ranges hold. -/
theorem parseValidLine_eq_some (cs : List Char) (o : Obs) :
    parseValidLine cs = some o ↔
      parseLine cs = some o ∧
      ¬(o.humidity < 0 ∨ 100 < o.humidity ∨ o.cloudCover < 0 ∨
        100 < o.cloudCover ∨ o.temperature < 0) := by
  unfold parseValidLine
  cases hp : parseLine cs with
  | none => simp
  | some o' =>
    have hred : (match some o' with
        | none => none
        | some o =>
          if o.humidity < 0 ∨ 100 < o.humidity ∨ o.cloudCover < 0 ∨
              100 < o.cloudCover ∨ o.temperature < 0 then none
          else some o : Option Obs)
        = if o'.humidity < 0 ∨ 100 < o'.humidity ∨ o'.cloudCover < 0 ∨
              100 < o'.cloudCover ∨ o'.temperature < 0 then none
          else some o' := rfl
    rw [hred]
    split_ifs with h
    · constructor
      · intro hcontra; exact absurd hcontra (by simp)
      · rintro ⟨ho, hnp⟩
        rw [Option.some.injEq] at ho
        subst ho
        exact absurd h hnp
    · constructor
      · intro he
        rw [Option.some.injEq] at he
        subst he
        exact ⟨rfl, h⟩
      · rintro ⟨ho, -⟩
        exact ho

/-- C2 amended: acceptance is decided by the nine `sscanf` conversions on a
prefix of the line, not by the tab-separated field count (trailing extra
fields are ignored, whitespace other than tab also separates). What survives
of the claim: every accepted observation satisfies the range constraints
`humidity ∈ [0,100]`, `cloud_cover ∈ [0,100]`, `temperature ≥ 0` (any
violation, and any conversion failure, yields `Rejected`), and a rejected
line contributes nothing to any accumulator. -/
theorem C2_parser_amended (t : List ClimateInfo) (l : String) :
    (parseValidLine l.data = none → processLine t l = (t, false)) ∧
    (∀ o, parseValidLine l.data = some o →
      0 ≤ o.humidity ∧ o.humidity ≤ 100 ∧ 0 ≤ o.cloudCover ∧
      o.cloudCover ≤ 100 ∧ 0 ≤ o.temperature) := by
  constructor
  · intro hn
    unfold processLine
    split_ifs with hguard
    · rfl
    · rw [hn]
  · intro o ho
    obtain ⟨-, hrange⟩ := (parseValidLine_eq_some l.data o).mp ho
    push_neg at hrange
    exact hrange

/-- Witness for the amended C2: a malformed line leaves a table unchanged
and an accepted observation is in range, at concrete inputs. -/
theorem C2_parser_amended_witness :
    processLine [] "bad line" = ([], false) ∧ (0 : ℚ) ≤ wObsTX.humidity :=
  ⟨(C2_parser_amended [] "bad line").1 (by decide),
   ((C2_parser_amended [] wLineTX).2 wObsTX (by decide)).1⟩

/-! ### Claim C10: overlong state-code fields -/

/-- C10 counterexample: the claim says a nine-field, in-range line whose
state-code field is longer than two characters is accepted with the code
truncated; in fact `exLineLongCode` is rejected (the leftover third
character makes the timestamp conversion fail), while the identical line
with a two-character code is accepted. -/
theorem C10_truncation_counterexample :
    parseValidLine exLineLongCode.data = none ∧
    (parseValidLine exLineOkCode.data).isSome = true ∧
    (exLineLongCode.data.splitOn '\t').length = 9 := by decide

/-- C10 amended: `%2s` stores at most the first two characters of the state
field, but the remainder is left in the input and must parse as the
timestamp: whenever the third character of the line is not a digit and not a
sign, the line is rejected — never accepted with a truncated code. -/
theorem C10_truncation_amended (c1 c2 c3 : Char) (rest : List Char)
    (h1 : isCSpace c1 = false) (h2 : isCSpace c2 = false)
    (h3 : isCSpace c3 = false) (h4 : c3.isDigit = false)
    (h5 : c3 ≠ '+') (h6 : c3 ≠ '-') :
    parseLine (c1 :: c2 :: c3 :: rest) = none := by
  have hscan : scanString 2 (c1 :: c2 :: c3 :: rest)
      = some (String.mk [c1, c2], c3 :: rest) := by
    simp [scanString, skipWs, List.dropWhile_cons, h1, takeWhileN, h2]
  have hull : scanULL (skipWs (c3 :: rest)) = none := by
    simp [scanULL, skipWs, List.dropWhile_cons, h3, signSplit, h5, h6,
      List.span_eq_take_drop, List.takeWhile_cons, h4]
  simp [parseLine, hscan, hull]

/-- Witness for the amended C10 at the concrete rejected line. -/
theorem C10_truncation_amended_witness :
    parseLine ('C' :: 'A' :: 'L' :: "\t1428300000000\tgeo\t93\t0\t100\t0\t95644\t277".data)
      = none :=
  C10_truncation_amended 'C' 'A' 'L' _ (by decide) (by decide) (by decide)
    (by decide) (by decide) (by decide)

end Climate
